import Mathlib

/-!
# rtl-sdr I/Q recorder (`src/main.c`): capture session lifecycle

A shallow embedding of `main.c`.  The program talks to three outside parties:
the C library (`getopt`, `atoi`, `atof`, `fopen`, `fwrite`), the radio driver
(`rtlsdr_*`) and the operator (signals).  Their answers are collected in a
`World`; every call the program makes on them is appended, in program order,
to a log of `Event`s.  The two file-scope variables `do_exit` and `dev` and the
contents of the stdio streams make up the `State`.
-/

namespace RtlSdr

/-! ## Data model -/

/-- One octet of sample data (`unsigned char`). -/
abbrev Byte := Fin 256

/-- Contents of the stdio streams, indexed by stream (`FILE *`). -/
abbrev Files := Nat → List Byte

/-- The locals of `main` that the option loop assigns (lines 63, 67, 68):
`dev_index`, `frequency` and `samp_rate` are `uint32_t`, `gain` is `int`. -/
structure CaptureConfig where
  dev_index : Nat
  frequency : Nat
  samp_rate : Nat
  gain : Int
  deriving DecidableEq, Repr

/-- Lines written to `stderr`, one constructor per `fprintf` of the source (and
one for the message of `getopt`); the arguments are the values substituted into
the format string. -/
inductive Diag where
  /-- The message `getopt` itself prints when it returns `?` (unknown option or
  missing option argument) -/
  | getoptError
  /-- The usage text (lines 36 to 42) -/
  | usageText
  /-- The line "No supported devices found." -/
  | noDevices
  /-- The line "Found %d device(s):" -/
  | found (device_count : Int)
  /-- The line "  %d:  %s" of the device list -/
  | deviceLine (i : Nat) (name : String)
  /-- The empty line of line 105 -/
  | blank
  /-- The line "Using device %d: %s" -/
  | usingDevice (dev_index : Nat) (name : String)
  /-- The line "Failed to open rtlsdr device #%d." -/
  | failedOpenDevice (dev_index : Nat)
  /-- The line "WARNING: Failed to set sample rate." -/
  | warnSampleRate
  /-- The line "WARNING: Failed to set center freq." -/
  | warnCenterFreq
  /-- The line "Tuned to %u Hz." -/
  | tunedTo (hz : Nat)
  /-- The line "WARNING: Failed to set tuner gain." -/
  | warnTunerGain
  /-- The line "Tuner gain set to %i dB." -/
  | gainSetTo (gain : Int)
  /-- The line "Failed to open %s" -/
  | failedOpenFile (filename : String)
  /-- The line "WARNING: Failed to reset buffers." -/
  | warnResetBuffer
  /-- The line "Reading samples..." -/
  | readingSamples
  /-- The line "User cancel, exiting..." -/
  | userCancel
  /-- The line "System cancel, exiting..." -/
  | systemCancel
  deriving DecidableEq, Repr

/-- Everything the program does to the outside, in program order.  All
`rtlsdr_*` calls after the open are made on the one file-scope handle `dev`. -/
inductive Event where
  | rtlsdr_get_device_count
  | rtlsdr_get_device_name (index : Nat)
  | rtlsdr_open (index : Nat)
  | rtlsdr_set_sample_rate (rate : Nat)
  | rtlsdr_set_center_freq (freq : Nat)
  | rtlsdr_set_tuner_gain (gain : Int)
  | rtlsdr_reset_buffer
  /-- The call `rtlsdr_read_async(dev, rtlsdr_callback, ctx, 0, 0)` -/
  | rtlsdr_read_async (ctx : Option Nat)
  | rtlsdr_cancel_async
  | rtlsdr_close
  /-- One of the three `sigaction` calls of lines 120 to 122 -/
  | sigaction
  | fopen (filename : String)
  | fclose (stream : Nat)
  /-- One invocation of `rtlsdr_callback` by the driver -/
  | callback (buf : List Byte) (ctx : Option Nat)
  | stderr (d : Diag)
  deriving DecidableEq, Repr

/-- What happens while `main` is blocked inside `rtlsdr_read_async`. -/
inductive StreamEvent where
  /-- The driver hands over a chunk (`buf`, `len`); `written` is the number of
  its bytes the platform write accepts -/
  | deliver (buf : List Byte) (written : Nat)
  /-- SIGINT, SIGTERM or SIGQUIT arrives and `sighandler` runs -/
  | signal
  deriving DecidableEq, Repr

/-- The answers of the C library, the driver and the operator.  Status results
are C `int`s, negative on failure.  Signals are taken to arrive while `main` is
blocked in the asynchronous read. -/
structure World where
  /-- Result of `atoi` on an option argument -/
  atoi : String → Int
  /-- Integral part of the `double` that `atof` gives on an option argument,
  which is all the casts `(uint32_t)atof(optarg)` and `(int)atof(optarg)` keep -/
  atof : String → Int
  /-- Number of attached devices, as stored in `int device_count` -/
  rtlsdr_get_device_count : Int
  /-- Name of the device at an index -/
  rtlsdr_get_device_name : Nat → String
  /-- Status of `rtlsdr_open(&dev, dev_index)` -/
  rtlsdr_open : Nat → Int
  /-- Status of `rtlsdr_set_sample_rate(dev, samp_rate)` -/
  rtlsdr_set_sample_rate : Nat → Int
  /-- Result of `rtlsdr_set_center_freq(dev, frequency)` -/
  rtlsdr_set_center_freq : Nat → Int
  /-- Status of `rtlsdr_set_tuner_gain(dev, gain)` -/
  rtlsdr_set_tuner_gain : Int → Int
  /-- Status of `rtlsdr_reset_buffer(dev)` -/
  rtlsdr_reset_buffer : Int
  /-- Result of `fopen(filename, "wb")`; `none` is the null pointer -/
  fopen : String → Option Nat
  /-- Deliveries and signals during the asynchronous read, in order -/
  stream : List StreamEvent
  /-- Result of `rtlsdr_read_async`, which `main` does not look at -/
  rtlsdr_read_async : Int

/-- The file-scope variables (lines 31 and 32; `dev` is implicit in the
`rtlsdr_*` events), the stream contents and the log. -/
structure State where
  do_exit : Int
  files : Files
  log : List Event

/-- How the process ended: through `exit(status)` or by `main` returning. -/
inductive Termination where
  | exited (status : Int)
  | returned (status : Int)
  deriving DecidableEq, Repr

/-- Result of one run of `main`. -/
structure Outcome where
  term : Termination
  state : State

/-! ## Machine arithmetic -/

/-- Conversion to `uint32_t`. -/
def toUInt32 (z : Int) : Nat := (z % 4294967296).toNat

/-- Two's complement wrap of a mathematical integer into `int` (32 bit). -/
def toInt32 (z : Int) : Int := (z + 2147483648) % 4294967296 - 2147483648

/-! ## The program -/

/-- Initial state: `do_exit = 0`, nothing logged, streams empty. -/
def State.init : State := { do_exit := 0, files := fun _ => [], log := [] }

/-- Append events to the log. -/
def State.emit (s : State) (es : List Event) : State := { s with log := s.log ++ es }

/-- Function `usage` (lines 34 to 44): print the usage text and `exit(1)`. -/
def usage (s : State) : Outcome :=
  { term := .exited 1, state := s.emit [.stderr .usageText] }

/-- Function `sighandler` (lines 46 to 50): set `do_exit` and ask the driver to
cancel the asynchronous read. -/
def sighandler (s : State) : State :=
  { s with do_exit := 1, log := s.log ++ [.rtlsdr_cancel_async] }

/-- The call `fwrite(buf, len, 1, stream)`: the stream grows by the bytes of the
chunk that the platform accepts (`written` of them, all of them when the write
succeeds in full). -/
def fwrite (buf : List Byte) (written : Nat) (stream : Nat) (files : Files) : Files :=
  fun j => if j = stream then files j ++ buf.take written else files j

/-- Function `rtlsdr_callback` (lines 52 to 56); the chunk (`buf`, `len`) is the
list `buf`, `ctx` is `none` for a null pointer. -/
def rtlsdr_callback (buf : List Byte) (written : Nat) (ctx : Option Nat) (files : Files) : Files :=
  match ctx with
  | some stream => fwrite buf written stream files
  | none => files

/-- Successive deliveries to the callback with the same context. -/
def deliverAll (ctx : Option Nat) : List (List Byte × Nat) → Files → Files
  | [], files => files
  | (buf, written) :: rest, files => deliverAll ctx rest (rtlsdr_callback buf written ctx files)

/-- The locals before the option loop (lines 63, 67, 68). -/
def CaptureConfig.init : CaptureConfig :=
  { dev_index := 0, frequency := 0, samp_rate := 2048000, gain := 0 }

/-- The `switch` of lines 71 to 87 for a recognised option letter. -/
def applyOption (atoi atof : String → Int) (opt : Char) (optarg : String) (c : CaptureConfig) :
    CaptureConfig :=
  if opt = 'd' then { c with dev_index := toUInt32 (atoi optarg) }
  else if opt = 'f' then { c with frequency := toUInt32 (atof optarg) }
  else if opt = 'g' then { c with gain := atoi optarg }
  else { c with samp_rate := toUInt32 (toInt32 (atof optarg)) }

/-- Result of the option loop: `usage()` was called, or `getopt` returned -1
with the locals and `optind` as given. -/
inductive Parsed where
  | usage
  | finished (c : CaptureConfig) (optind : Nat)
  deriving DecidableEq, Repr

/-- The loop `while ((opt = getopt(argc, argv, "d:f:g:s:")) != -1)` of lines 70
to 88, with `getopt` as POSIX specifies it (arguments are scanned in order,
none is moved); `atoi` and `atof` are the two conversions of the C library.
The list argument is what is left of `argv` from index `optind` on.  An element
that does not start with `-`, or is `-` alone, ends the scan; `--` ends it and
is skipped; otherwise the character after `-` is the option, all four known
options take an argument (the rest of the element, or else the next element),
and an unknown option or a missing argument makes `getopt` return `?`, for
which the `default` branch calls `usage()`. -/
def getoptLoop (atoi atof : String → Int) : List String → Nat → CaptureConfig → Parsed
  | [], optind, c => .finished c optind
  | a :: rest, optind, c =>
    match a.toList with
    | '-' :: o :: attached =>
      if o = '-' ∧ attached = [] then .finished c (optind + 1)
      else if o = 'd' ∨ o = 'f' ∨ o = 'g' ∨ o = 's' then
        match attached with
        | [] =>
          match rest with
          | [] => .usage
          | optarg :: rest' =>
            getoptLoop atoi atof rest' (optind + 2) (applyOption atoi atof o optarg c)
        | x :: xs =>
          getoptLoop atoi atof rest (optind + 1)
            (applyOption atoi atof o (String.mk (x :: xs)) c)
      else .usage
    | _ => .finished c optind

/-- Processing of the stream events while `rtlsdr_read_async` blocks: each
delivery invokes `rtlsdr_callback` with the registered context, each signal
runs `sighandler`. -/
def runStream (ctx : Option Nat) : List StreamEvent → State → State
  | [], s => s
  | .deliver buf written :: rest, s =>
    runStream ctx rest
      { s with files := rtlsdr_callback buf written ctx s.files,
               log := s.log ++ [.callback buf ctx] }
  | .signal :: rest, s => runStream ctx rest (sighandler s)

/-- The `fprintf` loop of lines 103 and 104. -/
def listDevices (w : World) (device_count : Int) : List Event :=
  (List.range device_count.toNat).flatMap fun i =>
    [.rtlsdr_get_device_name i, .stderr (.deviceLine i (w.rtlsdr_get_device_name i))]

/-- The final `return r >= 0 ? r : -r;` (line 181), in `int` arithmetic. -/
def exitCode (r : Int) : Int := if r ≥ 0 then r else toInt32 (-r)

/-- Lines 143 to 181: open the output file, stream, tear down.  `r` is the
status left by `rtlsdr_set_tuner_gain`. -/
def capture (w : World) (filename : String) (r : Int) (s : State) : Outcome :=
  let s := s.emit [.fopen filename]
  match w.fopen filename with
  | none =>
    -- goto out
    { term := .returned (exitCode r), state := s.emit [.stderr (.failedOpenFile filename)] }
  | some file =>
    let s := { s with files := fun j => if j = file then [] else s.files j }
    let s := s.emit [.rtlsdr_reset_buffer]
    let r := w.rtlsdr_reset_buffer
    let s := if r < 0 then s.emit [.stderr .warnResetBuffer] else s
    let s := s.emit [.stderr .readingSamples]
    let s := s.emit [.rtlsdr_read_async (some file)]
    let s := runStream (some file) w.stream s
    let s := if s.do_exit ≠ 0 then s.emit [.stderr .userCancel]
             else s.emit [.stderr .systemCancel]
    let s := s.emit [.fclose file]
    let s := s.emit [.rtlsdr_close]
    { term := .returned (exitCode r), state := s }

/-- Lines 124 to 141: the three configuration steps; gives the status of the
last one. -/
def configure (w : World) (c : CaptureConfig) (s : State) : Int × State :=
  let s := s.emit [.rtlsdr_set_sample_rate c.samp_rate]
  let r := w.rtlsdr_set_sample_rate c.samp_rate
  let s := if r < 0 then s.emit [.stderr .warnSampleRate] else s
  let s := s.emit [.rtlsdr_set_center_freq c.frequency]
  let r := w.rtlsdr_set_center_freq c.frequency
  let s := if r < 0 then s.emit [.stderr .warnCenterFreq]
           else s.emit [.stderr (.tunedTo c.frequency)]
  let s := s.emit [.rtlsdr_set_tuner_gain c.gain]
  let r := w.rtlsdr_set_tuner_gain c.gain
  let s := if r < 0 then s.emit [.stderr .warnTunerGain]
           else s.emit [.stderr (.gainSetTo c.gain)]
  (r, s)

/-- Lines 96 to 181: everything after the arguments are accepted. -/
def session (w : World) (c : CaptureConfig) (filename : String) (s : State) : Outcome :=
  let s := s.emit [.rtlsdr_get_device_count]
  let device_count := w.rtlsdr_get_device_count
  if device_count = 0 then
    { term := .exited 1, state := s.emit [.stderr .noDevices] }
  else
    let s := s.emit [.stderr (.found device_count)]
    let s := s.emit (listDevices w device_count)
    let s := s.emit [.stderr .blank]
    let s := s.emit [.rtlsdr_get_device_name c.dev_index,
                     .stderr (.usingDevice c.dev_index (w.rtlsdr_get_device_name c.dev_index))]
    let s := s.emit [.rtlsdr_open c.dev_index]
    let r := w.rtlsdr_open c.dev_index
    if r < 0 then
      { term := .exited 1, state := s.emit [.stderr (.failedOpenDevice c.dev_index)] }
    else
      let s := s.emit [.sigaction, .sigaction, .sigaction]
      let (r, s) := configure w c s
      capture w filename r s

/-- Function `main` (lines 58 to 182); `argv` includes the program name, `argc`
is its length. -/
def main (w : World) (argv : List String) : Outcome :=
  match getoptLoop w.atoi w.atof (argv.drop 1) 1 CaptureConfig.init with
  | .usage => usage (State.init.emit [.stderr .getoptError])
  | .finished c optind =>
    if argv.length ≤ optind then usage State.init
    else session w c (argv.getD optind "") State.init

/-! ## Concrete worlds used to run the program -/

/-- Value of the leading decimal digits of a character list. -/
def digitsValue : List Char → Nat → Nat
  | [], acc => acc
  | ch :: rest, acc =>
    if ch.isDigit then digitsValue rest (acc * 10 + (ch.toNat - 48)) else acc

/-- Reading of a plain decimal numeral with an optional minus sign, on which
`atoi` and the integral part of `atof` agree. -/
def decimal (s : String) : Int :=
  match s.toList with
  | '-' :: ds => -(digitsValue ds 0 : Int)
  | ds => (digitsValue ds 0 : Int)

/-- One attached device on which every call succeeds with status 0, an output
file that opens as stream 3, and a stream that ends at once. -/
def quietWorld : World :=
  { atoi := decimal
    atof := decimal
    rtlsdr_get_device_count := 1
    rtlsdr_get_device_name := fun _ => "Generic RTL2832U"
    rtlsdr_open := fun _ => 0
    rtlsdr_set_sample_rate := fun _ => 0
    rtlsdr_set_center_freq := fun _ => 0
    rtlsdr_set_tuner_gain := fun _ => 0
    rtlsdr_reset_buffer := 0
    fopen := fun _ => some 3
    stream := []
    rtlsdr_read_async := 0 }

/-! ## Shape of the log -/

/-- Log entries produced while the asynchronous read blocks. -/
def streamLog (ctx : Option Nat) : List StreamEvent → List Event
  | [] => []
  | .deliver buf _ :: rest => .callback buf ctx :: streamLog ctx rest
  | .signal :: rest => .rtlsdr_cancel_async :: streamLog ctx rest

/-- Log entries up to and including the signal registration. -/
def headLog (w : World) (c : CaptureConfig) : List Event :=
  [.rtlsdr_get_device_count, .stderr (.found w.rtlsdr_get_device_count)]
    ++ listDevices w w.rtlsdr_get_device_count
    ++ [.stderr .blank, .rtlsdr_get_device_name c.dev_index,
        .stderr (.usingDevice c.dev_index (w.rtlsdr_get_device_name c.dev_index)),
        .rtlsdr_open c.dev_index, .sigaction, .sigaction, .sigaction]

/-- Log entries of the three configuration steps. -/
def configLog (w : World) (c : CaptureConfig) : List Event :=
  [.rtlsdr_set_sample_rate c.samp_rate]
    ++ (if w.rtlsdr_set_sample_rate c.samp_rate < 0 then [.stderr .warnSampleRate] else [])
    ++ [.rtlsdr_set_center_freq c.frequency]
    ++ (if w.rtlsdr_set_center_freq c.frequency < 0 then [.stderr .warnCenterFreq]
        else [.stderr (.tunedTo c.frequency)])
    ++ [.rtlsdr_set_tuner_gain c.gain]
    ++ (if w.rtlsdr_set_tuner_gain c.gain < 0 then [.stderr .warnTunerGain]
        else [.stderr (.gainSetTo c.gain)])

/-- Log entries from the opening of the output file on. -/
def captureLog (w : World) (filename : String) : List Event :=
  .fopen filename ::
    match w.fopen filename with
    | none => [.stderr (.failedOpenFile filename)]
    | some file =>
      [.rtlsdr_reset_buffer]
        ++ (if w.rtlsdr_reset_buffer < 0 then [.stderr .warnResetBuffer] else [])
        ++ [.stderr .readingSamples, .rtlsdr_read_async (some file)]
        ++ streamLog (some file) w.stream
        ++ (if StreamEvent.signal ∈ w.stream then [.stderr .userCancel]
            else [.stderr .systemCancel])
        ++ [.fclose file, .rtlsdr_close]

/-! ## Vocabulary of the properties -/

/-- The steps of a session on the device handle: the open, the three setters,
the buffer reset and the streaming call. -/
def Event.isSessionStep : Event → Bool
  | .rtlsdr_open _ => true
  | .rtlsdr_set_sample_rate _ => true
  | .rtlsdr_set_center_freq _ => true
  | .rtlsdr_set_tuner_gain _ => true
  | .rtlsdr_reset_buffer => true
  | .rtlsdr_read_async _ => true
  | _ => false

/-- A session step or the opening of the output file. -/
def Event.isSessionStepOrFopen : Event → Bool
  | .rtlsdr_open _ => true
  | .rtlsdr_set_sample_rate _ => true
  | .rtlsdr_set_center_freq _ => true
  | .rtlsdr_set_tuner_gain _ => true
  | .fopen _ => true
  | .rtlsdr_reset_buffer => true
  | .rtlsdr_read_async _ => true
  | _ => false

/-- A start of asynchronous streaming. -/
def Event.isReadAsync : Event → Bool
  | .rtlsdr_read_async _ => true
  | _ => false

/-- One of the four configuration warnings on `stderr`. -/
def Event.isWarning : Event → Bool
  | .stderr .warnSampleRate => true
  | .stderr .warnCenterFreq => true
  | .stderr .warnTunerGain => true
  | .stderr .warnResetBuffer => true
  | _ => false

/-- The frequency carried by a "Tuned to %u Hz." line. -/
def Event.tunedHz : Event → Option Nat
  | .stderr (.tunedTo hz) => some hz
  | _ => none

/-- The frequencies reported to the operator by "Tuned to %u Hz.", in order. -/
def tunedReports (log : List Event) : List Nat := log.filterMap Event.tunedHz

/-- A step of the capture phase: the buffer reset, the streaming call or an
invocation of the delivery callback. -/
def Event.isCaptureStep : Event → Bool
  | .rtlsdr_reset_buffer => true
  | .rtlsdr_read_async _ => true
  | .callback _ _ => true
  | _ => false

/-- The last device status `main` keeps in `r`: the result of
`rtlsdr_set_tuner_gain` when the output file cannot be opened, the result of
`rtlsdr_reset_buffer` when streaming ran. -/
def lastStatus (w : World) (c : CaptureConfig) (filename : String) : Int :=
  match w.fopen filename with
  | none => w.rtlsdr_set_tuner_gain c.gain
  | some _ => w.rtlsdr_reset_buffer

/-- The world `quietWorld` with a device that answers `rtlsdr_set_center_freq`
with 100000200. -/
def detunedWorld : World :=
  { quietWorld with rtlsdr_set_center_freq := fun _ => 100000200 }

/-- The world `quietWorld` with an output file that cannot be opened. -/
def sinklessWorld : World :=
  { quietWorld with fopen := fun _ => none }

/-- The world `quietWorld` with a device on which `rtlsdr_set_sample_rate`
fails and every other step succeeds. -/
def rateFailWorld : World :=
  { quietWorld with rtlsdr_set_sample_rate := fun _ => -1 }

/-- A device on which the sample rate and the gain cannot be set and the buffer
reset fails, and a stream of two chunks, an interrupt and a late chunk. -/
def flakyWorld : World :=
  { quietWorld with
    rtlsdr_set_sample_rate := fun _ => -1
    rtlsdr_set_tuner_gain := fun _ => -3
    rtlsdr_reset_buffer := -5
    stream := [.deliver [1, 2] 2, .deliver [] 0, .signal, .deliver [255] 1] }

/-- The world `flakyWorld` with an output file that cannot be opened. -/
def blockedWorld : World :=
  { flakyWorld with fopen := fun _ => none }

/-- An output file that cannot be opened and a device whose
`rtlsdr_set_tuner_gain` answers `INT_MIN`. -/
def intMinWorld : World :=
  { sinklessWorld with rtlsdr_set_tuner_gain := fun _ => -2147483648 }

/-! ## Lemmas on the shape of a run -/

theorem runStream_log (ctx : Option Nat) (evs : List StreamEvent) (s : State) :
    (runStream ctx evs s).log = s.log ++ streamLog ctx evs := by
  induction evs generalizing s with
  | nil => simp [runStream, streamLog]
  | cons ev rest ih =>
    cases ev with
    | deliver buf written => simp [runStream, streamLog, ih]
    | signal => simp [runStream, streamLog, ih, sighandler]

theorem runStream_do_exit (ctx : Option Nat) (evs : List StreamEvent) (s : State) :
    (runStream ctx evs s).do_exit = if StreamEvent.signal ∈ evs then 1 else s.do_exit := by
  induction evs generalizing s with
  | nil => simp [runStream]
  | cons ev rest ih =>
    cases ev with
    | deliver buf written => simp [runStream, ih]
    | signal => simp [runStream, ih, sighandler]

theorem configure_log (w : World) (c : CaptureConfig) (s : State) :
    (configure w c s).2.log = s.log ++ configLog w c := by
  simp only [configure, configLog, State.emit]
  split_ifs <;> simp

theorem configure_status (w : World) (c : CaptureConfig) (s : State) :
    (configure w c s).1 = w.rtlsdr_set_tuner_gain c.gain := rfl

theorem configure_do_exit (w : World) (c : CaptureConfig) (s : State) :
    (configure w c s).2.do_exit = s.do_exit := by
  simp only [configure, State.emit]
  split_ifs <;> rfl

theorem capture_log (w : World) (filename : String) (r : Int) (s : State) (h0 : s.do_exit = 0) :
    (capture w filename r s).state.log = s.log ++ captureLog w filename := by
  unfold capture captureLog
  cases hf : w.fopen filename with
  | none => simp [State.emit]
  | some file =>
    simp only [State.emit]
    by_cases hs : StreamEvent.signal ∈ w.stream <;> by_cases hr : w.rtlsdr_reset_buffer < 0 <;>
      simp [runStream_log, runStream_do_exit, hs, hr, h0]

theorem capture_term (w : World) (filename : String) (r : Int) (s : State) :
    (capture w filename r s).term =
      .returned (exitCode (match w.fopen filename with
        | none => r
        | some _ => w.rtlsdr_reset_buffer)) := by
  unfold capture
  cases hf : w.fopen filename <;> simp

/-- The run of `main` once the arguments are accepted, a device is attached and
the open succeeds. -/
theorem main_opened (w : World) (argv : List String) (c : CaptureConfig) (optind : Nat)
    (hp : getoptLoop w.atoi w.atof (argv.drop 1) 1 CaptureConfig.init = .finished c optind)
    (ha : optind < argv.length)
    (hd : w.rtlsdr_get_device_count ≠ 0)
    (ho : 0 ≤ w.rtlsdr_open c.dev_index) :
    (main w argv).state.log = headLog w c ++ configLog w c ++ captureLog w (argv.getD optind "")
    ∧ (main w argv).term = .returned (exitCode (lastStatus w c (argv.getD optind ""))) := by
  unfold main
  rw [hp]
  simp only [not_le.mpr ha, if_false]
  unfold session
  simp only [hd, if_false, not_lt.mpr ho]
  constructor
  · rw [capture_log _ _ _ _ (by rw [configure_do_exit]; rfl), configure_log]
    simp [State.emit, State.init, headLog]
  · rw [capture_term, configure_status]
    rfl

theorem mem_listDevices {w : World} {n : Int} {e : Event} (h : e ∈ listDevices w n) :
    (∃ i, e = .rtlsdr_get_device_name i) ∨ ∃ i name, e = .stderr (.deviceLine i name) := by
  simp only [listDevices, List.mem_flatMap, List.mem_cons, List.mem_singleton] at h
  obtain ⟨i, _, h | h | h⟩ := h
  · exact Or.inl ⟨i, h⟩
  · exact Or.inr ⟨_, _, h⟩
  · simp at h

theorem mem_streamLog {ctx : Option Nat} {evs : List StreamEvent} {e : Event}
    (h : e ∈ streamLog ctx evs) : (∃ buf, e = .callback buf ctx) ∨ e = .rtlsdr_cancel_async := by
  induction evs with
  | nil => simp [streamLog] at h
  | cons ev rest ih =>
    cases ev with
    | deliver buf written =>
      simp only [streamLog, List.mem_cons] at h
      rcases h with h | h
      · exact Or.inl ⟨buf, h⟩
      · exact ih h
    | signal =>
      simp only [streamLog, List.mem_cons] at h
      rcases h with h | h
      · exact Or.inr h
      · exact ih h

theorem filter_listDevices (w : World) (n : Int) (p : Event → Bool)
    (h1 : ∀ i, p (.rtlsdr_get_device_name i) = false)
    (h2 : ∀ i name, p (.stderr (.deviceLine i name)) = false) :
    (listDevices w n).filter p = [] := by
  rw [List.filter_eq_nil_iff]
  intro e he
  rcases mem_listDevices he with ⟨i, rfl⟩ | ⟨i, name, rfl⟩
  · simp [h1]
  · simp [h2]

theorem filter_streamLog (ctx : Option Nat) (evs : List StreamEvent) (p : Event → Bool)
    (h1 : ∀ buf, p (.callback buf ctx) = false) (h2 : p .rtlsdr_cancel_async = false) :
    (streamLog ctx evs).filter p = [] := by
  rw [List.filter_eq_nil_iff]
  intro e he
  rcases mem_streamLog he with ⟨buf, rfl⟩ | rfl
  · simp [h1]
  · simp [h2]

theorem filterMap_tunedHz_listDevices (w : World) (n : Int) :
    (listDevices w n).filterMap Event.tunedHz = [] := by
  rw [List.filterMap_eq_nil_iff]
  intro e he
  rcases mem_listDevices he with ⟨i, rfl⟩ | ⟨i, name, rfl⟩ <;> rfl

theorem filterMap_tunedHz_streamLog (ctx : Option Nat) (evs : List StreamEvent) :
    (streamLog ctx evs).filterMap Event.tunedHz = [] := by
  rw [List.filterMap_eq_nil_iff]
  intro e he
  rcases mem_streamLog he with ⟨buf, rfl⟩ | rfl <;> rfl

theorem exitCode_eq_natAbs (r : Int) (h : -2147483648 < r) : exitCode r = (r.natAbs : Int) := by
  unfold exitCode toInt32
  split_ifs with h0 <;> omega

theorem deliverAll_none (ds : List (List Byte × Nat)) (files : Files) :
    deliverAll none ds files = files := by
  induction ds generalizing files with
  | nil => rfl
  | cons d rest ih =>
    obtain ⟨buf, written⟩ := d
    simp only [deliverAll, rtlsdr_callback]
    exact ih files

theorem deliverAll_some (stream : Nat) (ds : List (List Byte × Nat)) (files : Files)
    (hfull : ∀ d ∈ ds, d.2 = d.1.length) (j : Nat) :
    deliverAll (some stream) ds files j =
      if j = stream then files j ++ (ds.map Prod.fst).flatten else files j := by
  induction ds generalizing files with
  | nil => simp [deliverAll]
  | cons d rest ih =>
    obtain ⟨buf, written⟩ := d
    have hw : written = buf.length := hfull (buf, written) (List.mem_cons_self _ _)
    have hrest : ∀ d ∈ rest, d.2 = d.1.length := fun d hd => hfull d (List.mem_cons_of_mem _ hd)
    simp only [deliverAll, rtlsdr_callback]
    rw [ih _ hrest]
    by_cases hj : j = stream <;> simp [fwrite, hj, hw]

/-! ## The claims -/

/-- C1 (the code departs from the claim): with a device that opens and an
output file that cannot be opened, `main` returns without ever calling
`rtlsdr_close`, although `rtlsdr_open` was called and succeeded; the same run
with an output file that opens calls `rtlsdr_close` once. -/
theorem close_skipped_when_output_file_fails :
    sinklessWorld.rtlsdr_open 0 = 0
    ∧ Event.rtlsdr_open 0 ∈ (main sinklessWorld ["rtl_sdr", "-f", "100000000", "out.bin"]).state.log
    ∧ (main sinklessWorld ["rtl_sdr", "-f", "100000000", "out.bin"]).state.log.count
        .rtlsdr_close = 0
    ∧ (main sinklessWorld ["rtl_sdr", "-f", "100000000", "out.bin"]).term = .returned 0
    ∧ (main quietWorld ["rtl_sdr", "-f", "100000000", "out.bin"]).state.log.count
        .rtlsdr_close = 1 := by
  decide

/-- C2: once the device open has succeeded, the calls on the handle are, in
this order and each exactly once, `rtlsdr_set_sample_rate`,
`rtlsdr_set_center_freq`, `rtlsdr_set_tuner_gain` with the configured values,
whatever the setters answer; the buffer reset and the streaming call, if any,
come after them. -/
theorem setters_called_in_order (w : World) (argv : List String) (c : CaptureConfig)
    (optind : Nat)
    (hp : getoptLoop w.atoi w.atof (argv.drop 1) 1 CaptureConfig.init = .finished c optind)
    (ha : optind < argv.length)
    (hd : w.rtlsdr_get_device_count ≠ 0)
    (ho : 0 ≤ w.rtlsdr_open c.dev_index) :
    (main w argv).state.log.filter Event.isSessionStep =
      [.rtlsdr_open c.dev_index,
       .rtlsdr_set_sample_rate c.samp_rate,
       .rtlsdr_set_center_freq c.frequency,
       .rtlsdr_set_tuner_gain c.gain]
      ++ (match w.fopen (argv.getD optind "") with
          | none => []
          | some file => [.rtlsdr_reset_buffer, .rtlsdr_read_async (some file)]) := by
  rw [(main_opened w argv c optind hp ha hd ho).1]
  have hL := filter_listDevices w w.rtlsdr_get_device_count Event.isSessionStep
    (fun _ => rfl) (fun _ _ => rfl)
  have hS := fun ctx => filter_streamLog ctx w.stream Event.isSessionStep (fun _ => rfl) rfl
  generalize argv.getD optind "" = filename
  by_cases h1 : w.rtlsdr_set_sample_rate c.samp_rate < 0 <;>
  by_cases h2 : w.rtlsdr_set_center_freq c.frequency < 0 <;>
  by_cases h3 : w.rtlsdr_set_tuner_gain c.gain < 0 <;>
  by_cases h4 : w.rtlsdr_reset_buffer < 0 <;>
  by_cases h5 : StreamEvent.signal ∈ w.stream <;>
  cases hf : w.fopen filename <;>
  simp [headLog, configLog, captureLog, List.filter_append, List.filter_cons, hL, hS,
    Event.isSessionStep, h1, h2, h3, h4, h5, hf]

/-- C2 at a device on which the sample rate and the gain cannot be set. -/
theorem setters_called_in_order_witness :
    (main flakyWorld ["rtl_sdr", "-f", "433920000", "-s", "1024000", "-g", "20",
        "iq.bin"]).state.log.filter Event.isSessionStep =
      [.rtlsdr_open 0, .rtlsdr_set_sample_rate 1024000, .rtlsdr_set_center_freq 433920000,
       .rtlsdr_set_tuner_gain 20, .rtlsdr_reset_buffer, .rtlsdr_read_async (some 3)] :=
  setters_called_in_order flakyWorld
    ["rtl_sdr", "-f", "433920000", "-s", "1024000", "-g", "20", "iq.bin"]
    { dev_index := 0, frequency := 433920000, samp_rate := 1024000, gain := 20 } 7
    (by decide) (by decide) (by decide) (by decide)

/-- C3: chunks delivered one after another to `rtlsdr_callback` with a present
sink, every write succeeding in full, leave in the sink its initial contents
followed by the chunks in delivery order, and leave the other streams alone; a
delivery with a null context changes no stream. -/
theorem callback_appends_chunks_in_order (files : Files) (stream : Nat)
    (ds : List (List Byte × Nat)) (hfull : ∀ d ∈ ds, d.2 = d.1.length) :
    deliverAll (some stream) ds files stream = files stream ++ (ds.map Prod.fst).flatten
    ∧ (∀ j, j ≠ stream → deliverAll (some stream) ds files j = files j)
    ∧ ∀ (ds' : List (List Byte × Nat)) (files' : Files), deliverAll none ds' files' = files' := by
  refine ⟨?_, ?_, deliverAll_none⟩
  · rw [deliverAll_some stream ds files hfull]
    simp
  · intro j hj
    rw [deliverAll_some stream ds files hfull]
    simp [hj]

/-- C3 on three chunks, one of them empty, appended to a stream that already
holds one byte. -/
theorem callback_appends_chunks_in_order_witness :
    deliverAll (some 3) [([1, 2], 2), ([], 0), ([255], 1)] (fun _ => [7]) 3
      = [7] ++ ([[1, 2], [], [255]] : List (List Byte)).flatten
    ∧ (∀ j, j ≠ 3 → deliverAll (some 3) [([1, 2], 2), ([], 0), ([255], 1)] (fun _ => [7]) j
        = [7])
    ∧ ∀ (ds' : List (List Byte × Nat)) (files' : Files), deliverAll none ds' files' = files' :=
  callback_appends_chunks_in_order (fun _ => [7]) 3 [([1, 2], 2), ([], 0), ([255], 1)]
    (by decide)

/-- C4 (the claim fails): for the configuration device 0, 100000000 Hz, rate
2048000, gain 0 and a device that answers `rtlsdr_set_center_freq` with
100000200, the one frequency reported is the requested 100000000. -/
theorem tuned_report_is_not_the_achieved_frequency :
    getoptLoop detunedWorld.atoi detunedWorld.atof
        ["-d", "0", "-f", "100000000", "-s", "2048000", "-g", "0", "out.bin"] 1
        CaptureConfig.init
      = .finished { dev_index := 0, frequency := 100000000, samp_rate := 2048000, gain := 0 } 9
    ∧ detunedWorld.rtlsdr_set_center_freq 100000000 = 100000200
    ∧ tunedReports (main detunedWorld
        ["rtl_sdr", "-d", "0", "-f", "100000000", "-s", "2048000", "-g", "0",
          "out.bin"]).state.log = [100000000] := by
  decide

/-- C4 as amended: when the frequency-set step succeeds, exactly one tuned
frequency is reported and it is the requested frequency, whatever
non-negative value `rtlsdr_set_center_freq` returned. -/
theorem tuned_report_is_requested_frequency (w : World) (argv : List String)
    (c : CaptureConfig) (optind : Nat)
    (hp : getoptLoop w.atoi w.atof (argv.drop 1) 1 CaptureConfig.init = .finished c optind)
    (ha : optind < argv.length)
    (hd : w.rtlsdr_get_device_count ≠ 0)
    (ho : 0 ≤ w.rtlsdr_open c.dev_index)
    (hfreq : 0 ≤ w.rtlsdr_set_center_freq c.frequency) :
    tunedReports (main w argv).state.log = [c.frequency] := by
  rw [(main_opened w argv c optind hp ha hd ho).1]
  have hL := filterMap_tunedHz_listDevices w w.rtlsdr_get_device_count
  have hS := fun ctx => filterMap_tunedHz_streamLog ctx w.stream
  have h2 : ¬ w.rtlsdr_set_center_freq c.frequency < 0 := not_lt.mpr hfreq
  generalize argv.getD optind "" = filename
  by_cases h1 : w.rtlsdr_set_sample_rate c.samp_rate < 0 <;>
  by_cases h3 : w.rtlsdr_set_tuner_gain c.gain < 0 <;>
  by_cases h4 : w.rtlsdr_reset_buffer < 0 <;>
  by_cases h5 : StreamEvent.signal ∈ w.stream <;>
  cases hf : w.fopen filename <;>
  simp [tunedReports, headLog, configLog, captureLog, List.filterMap_append,
    List.filterMap_cons, hL, hS, Event.tunedHz, h1, h2, h3, h4, h5, hf]

/-- C4 as amended, at the scenario of the claim. -/
theorem tuned_report_is_requested_frequency_witness :
    tunedReports (main detunedWorld
      ["rtl_sdr", "-d", "0", "-f", "100000000", "-s", "2048000", "-g", "0",
        "out.bin"]).state.log = [100000000] :=
  tuned_report_is_requested_frequency detunedWorld
    ["rtl_sdr", "-d", "0", "-f", "100000000", "-s", "2048000", "-g", "0", "out.bin"]
    { dev_index := 0, frequency := 100000000, samp_rate := 2048000, gain := 0 } 9
    (by decide) (by decide) (by decide) (by decide) (by decide)

/-- C5: with the device and the output file open, whatever the three setters
and the buffer reset answer, `main` runs on to its `return`, starts
asynchronous streaming exactly once, and prints for each failing step its own
warning and no other. -/
theorem config_failures_do_not_abort (w : World) (argv : List String) (c : CaptureConfig)
    (optind file : Nat)
    (hp : getoptLoop w.atoi w.atof (argv.drop 1) 1 CaptureConfig.init = .finished c optind)
    (ha : optind < argv.length)
    (hd : w.rtlsdr_get_device_count ≠ 0)
    (ho : 0 ≤ w.rtlsdr_open c.dev_index)
    (hf : w.fopen (argv.getD optind "") = some file) :
    (∃ status, (main w argv).term = .returned status)
    ∧ (main w argv).state.log.filter Event.isReadAsync = [.rtlsdr_read_async (some file)]
    ∧ (main w argv).state.log.filter Event.isWarning =
        (if w.rtlsdr_set_sample_rate c.samp_rate < 0 then [.stderr .warnSampleRate] else [])
        ++ (if w.rtlsdr_set_center_freq c.frequency < 0 then [.stderr .warnCenterFreq] else [])
        ++ (if w.rtlsdr_set_tuner_gain c.gain < 0 then [.stderr .warnTunerGain] else [])
        ++ (if w.rtlsdr_reset_buffer < 0 then [.stderr .warnResetBuffer] else []) := by
  obtain ⟨hlog, hterm⟩ := main_opened w argv c optind hp ha hd ho
  refine ⟨⟨_, hterm⟩, ?_⟩
  rw [hlog]
  revert hf
  generalize argv.getD optind "" = filename
  intro hf
  have hL := filter_listDevices w w.rtlsdr_get_device_count Event.isReadAsync
    (fun _ => rfl) (fun _ _ => rfl)
  have hS := filter_streamLog (some file) w.stream Event.isReadAsync (fun _ => rfl) rfl
  have hL1 := filter_listDevices w w.rtlsdr_get_device_count Event.isWarning
    (fun _ => rfl) (fun _ _ => rfl)
  have hS1 := filter_streamLog (some file) w.stream Event.isWarning (fun _ => rfl) rfl
  by_cases h1 : w.rtlsdr_set_sample_rate c.samp_rate < 0 <;>
  by_cases h2 : w.rtlsdr_set_center_freq c.frequency < 0 <;>
  by_cases h3 : w.rtlsdr_set_tuner_gain c.gain < 0 <;>
  by_cases h4 : w.rtlsdr_reset_buffer < 0 <;>
  by_cases h5 : StreamEvent.signal ∈ w.stream <;>
  simp [headLog, configLog, captureLog, List.filter_append, List.filter_cons, hL, hS, hL1, hS1,
    Event.isReadAsync, Event.isWarning, h1, h2, h3, h4, h5, hf]

/-- C5 at the scenario of the claim: `rtlsdr_set_sample_rate` fails and every
other step succeeds. -/
theorem config_failures_do_not_abort_witness :
    (∃ status, (main rateFailWorld ["rtl_sdr", "-f", "100000000", "out.bin"]).term
        = .returned status)
    ∧ (main rateFailWorld ["rtl_sdr", "-f", "100000000", "out.bin"]).state.log.filter
        Event.isReadAsync = [.rtlsdr_read_async (some 3)]
    ∧ (main rateFailWorld ["rtl_sdr", "-f", "100000000", "out.bin"]).state.log.filter
        Event.isWarning = [.stderr .warnSampleRate] :=
  config_failures_do_not_abort rateFailWorld ["rtl_sdr", "-f", "100000000", "out.bin"]
    { dev_index := 0, frequency := 100000000, samp_rate := 2048000, gain := 0 } 3 3
    (by decide) (by decide) (by decide) (by decide) (by decide)

/-- C6 (the claim fails): two invocations of `sighandler` leave two cancel
requests on record where one invocation leaves one. -/
theorem sighandler_twice_records_two_cancels :
    (sighandler (sighandler State.init)).log = [.rtlsdr_cancel_async, .rtlsdr_cancel_async]
    ∧ (sighandler State.init).log = [.rtlsdr_cancel_async]
    ∧ (sighandler (sighandler State.init)).log ≠ (sighandler State.init).log := by
  decide

/-- C6 as amended: from any state, two invocations of `sighandler` leave
`do_exit` set, as one invocation does, and leave the streams untouched; the
second invocation adds exactly one further cancel request to the record. -/
theorem second_signal_adds_one_cancel_request (s : State) :
    (sighandler (sighandler s)).do_exit = 1
    ∧ (sighandler (sighandler s)).do_exit = (sighandler s).do_exit
    ∧ (sighandler (sighandler s)).files = (sighandler s).files
    ∧ (sighandler (sighandler s)).log = (sighandler s).log ++ [.rtlsdr_cancel_async] :=
  ⟨rfl, rfl, rfl, rfl⟩

/-- C7: the output file is opened after the three configuration steps and
before the buffer reset and the streaming call; when it cannot be opened, the
log holds no buffer reset, no streaming call and no callback invocation. -/
theorem capture_gated_by_output_file (w : World) (argv : List String) (c : CaptureConfig)
    (optind : Nat)
    (hp : getoptLoop w.atoi w.atof (argv.drop 1) 1 CaptureConfig.init = .finished c optind)
    (ha : optind < argv.length)
    (hd : w.rtlsdr_get_device_count ≠ 0)
    (ho : 0 ≤ w.rtlsdr_open c.dev_index) :
    (main w argv).state.log.filter Event.isSessionStepOrFopen =
      [.rtlsdr_open c.dev_index,
       .rtlsdr_set_sample_rate c.samp_rate,
       .rtlsdr_set_center_freq c.frequency,
       .rtlsdr_set_tuner_gain c.gain,
       .fopen (argv.getD optind "")]
      ++ (match w.fopen (argv.getD optind "") with
          | none => []
          | some file => [.rtlsdr_reset_buffer, .rtlsdr_read_async (some file)])
    ∧ (w.fopen (argv.getD optind "") = none →
        (main w argv).state.log.filter Event.isCaptureStep = []) := by
  rw [(main_opened w argv c optind hp ha hd ho).1]
  have hL := filter_listDevices w w.rtlsdr_get_device_count
    Event.isSessionStepOrFopen (fun _ => rfl) (fun _ _ => rfl)
  have hS := fun ctx => filter_streamLog ctx w.stream
    Event.isSessionStepOrFopen (fun _ => rfl) rfl
  have hL1 := filter_listDevices w w.rtlsdr_get_device_count Event.isCaptureStep
    (fun _ => rfl) (fun _ _ => rfl)
  generalize argv.getD optind "" = filename
  constructor
  · by_cases h1 : w.rtlsdr_set_sample_rate c.samp_rate < 0 <;>
    by_cases h2 : w.rtlsdr_set_center_freq c.frequency < 0 <;>
    by_cases h3 : w.rtlsdr_set_tuner_gain c.gain < 0 <;>
    by_cases h4 : w.rtlsdr_reset_buffer < 0 <;>
    by_cases h5 : StreamEvent.signal ∈ w.stream <;>
    cases hf : w.fopen filename <;>
    simp [headLog, configLog, captureLog, List.filter_append, List.filter_cons, hL, hS,
      Event.isSessionStepOrFopen, h1, h2, h3, h4, h5, hf]
  · intro hf
    by_cases h1 : w.rtlsdr_set_sample_rate c.samp_rate < 0 <;>
    by_cases h2 : w.rtlsdr_set_center_freq c.frequency < 0 <;>
    by_cases h3 : w.rtlsdr_set_tuner_gain c.gain < 0 <;>
    simp [headLog, configLog, captureLog, List.filter_append, List.filter_cons, hL1,
      Event.isCaptureStep, h1, h2, h3, hf]

/-- C7 at an output file that cannot be opened, with chunks waiting in the
driver. -/
theorem capture_gated_by_output_file_witness :
    (main blockedWorld ["rtl_sdr", "-f", "100000000", "out.bin"]).state.log.filter
        Event.isSessionStepOrFopen =
      [.rtlsdr_open 0, .rtlsdr_set_sample_rate 2048000, .rtlsdr_set_center_freq 100000000,
       .rtlsdr_set_tuner_gain 0, .fopen "out.bin"]
    ∧ (main blockedWorld ["rtl_sdr", "-f", "100000000", "out.bin"]).state.log.filter
        Event.isCaptureStep = [] :=
  have h := capture_gated_by_output_file blockedWorld ["rtl_sdr", "-f", "100000000", "out.bin"]
    { dev_index := 0, frequency := 100000000, samp_rate := 2048000, gain := 0 } 3
    (by decide) (by decide) (by decide) (by decide)
  ⟨h.1, h.2 rfl⟩

/-- C8: an argument list that leaves no operand at `argv[optind]`, whatever
options it carries, ends in `exit(1)` after the usage text, and all the program
did was to write to `stderr`: no call on the driver occurs. -/
theorem no_output_path_is_usage_error (w : World) (argv : List String)
    (h : ∀ c optind, getoptLoop w.atoi w.atof (argv.drop 1) 1 CaptureConfig.init
          = .finished c optind → argv.length ≤ optind) :
    (main w argv).term = .exited 1
    ∧ (main w argv).state.log.getLast? = some (.stderr .usageText)
    ∧ ∀ e ∈ (main w argv).state.log, ∃ d, e = .stderr d := by
  unfold main
  cases hp : getoptLoop w.atoi w.atof (argv.drop 1) 1 CaptureConfig.init with
  | usage => simp [usage, State.emit, State.init]
  | finished c optind => simp [h c optind hp, usage, State.emit, State.init]

/-- C8 at an argument list made of flags only. -/
theorem no_output_path_is_usage_error_witness :
    (main quietWorld ["rtl_sdr", "-f", "100000000", "-g", "20"]).term = .exited 1
    ∧ (main quietWorld ["rtl_sdr", "-f", "100000000", "-g", "20"]).state.log.getLast?
        = some (.stderr .usageText)
    ∧ ∀ e ∈ (main quietWorld ["rtl_sdr", "-f", "100000000", "-g", "20"]).state.log,
        ∃ d, e = .stderr d :=
  no_output_path_is_usage_error quietWorld ["rtl_sdr", "-f", "100000000", "-g", "20"]
    (fun c optind hp => by
      have e : getoptLoop quietWorld.atoi quietWorld.atof
          (["rtl_sdr", "-f", "100000000", "-g", "20"].drop 1) 1 CaptureConfig.init
          = .finished { dev_index := 0, frequency := 100000000, samp_rate := 2048000,
                        gain := 20 } 5 := by decide
      rw [e] at hp
      cases hp
      decide)

/-- C9 (the code departs from the claim): an argument list with an output path
and no `-f` is accepted; `main` goes on to the device, tunes it to 0 Hz,
streams and returns 0, and the usage text is never printed. -/
theorem missing_frequency_flag_is_accepted :
    (main quietWorld ["rtl_sdr", "out.bin"]).term = .returned 0
    ∧ Event.stderr .usageText ∉ (main quietWorld ["rtl_sdr", "out.bin"]).state.log
    ∧ Event.rtlsdr_get_device_count ∈ (main quietWorld ["rtl_sdr", "out.bin"]).state.log
    ∧ Event.rtlsdr_set_center_freq 0 ∈ (main quietWorld ["rtl_sdr", "out.bin"]).state.log
    ∧ Event.rtlsdr_read_async (some 3) ∈ (main quietWorld ["rtl_sdr", "out.bin"]).state.log := by
  decide

/-- C10 (the claim fails): when `rtlsdr_set_tuner_gain` answers `INT_MIN` and
the output file cannot be opened, `main` returns a negative value, not the
absolute value of that status. -/
theorem exit_status_negative_at_int_min :
    lastStatus intMinWorld CaptureConfig.init "out.bin" = -2147483648
    ∧ (main intMinWorld ["rtl_sdr", "out.bin"]).term = .returned (-2147483648)
    ∧ (main intMinWorld ["rtl_sdr", "out.bin"]).term
        ≠ .returned ((lastStatus intMinWorld CaptureConfig.init "out.bin").natAbs : Int) := by
  decide

/-- C10 as amended: whenever `main` returns and the last status it kept is
above `INT_MIN`, the value returned is the absolute value of that status (the
result of `rtlsdr_set_tuner_gain` when the output file cannot be opened, of
`rtlsdr_reset_buffer` when streaming ran), hence never negative, and 0 when the
status is 0 even though the output file failed to open; it depends neither on
what happens during streaming nor on the result of the streaming call. -/
theorem exit_status_is_abs_of_last_status (w : World) (argv : List String) (c : CaptureConfig)
    (optind : Nat)
    (hp : getoptLoop w.atoi w.atof (argv.drop 1) 1 CaptureConfig.init = .finished c optind)
    (ha : optind < argv.length)
    (hd : w.rtlsdr_get_device_count ≠ 0)
    (ho : 0 ≤ w.rtlsdr_open c.dev_index)
    (hr : -2147483648 < lastStatus w c (argv.getD optind "")) :
    (main w argv).term = .returned ((lastStatus w c (argv.getD optind "")).natAbs : Int)
    ∧ ∀ (stream : List StreamEvent) (status : Int),
        (main { w with stream := stream, rtlsdr_read_async := status } argv).term
          = (main w argv).term := by
  have hterm := (main_opened w argv c optind hp ha hd ho).2
  refine ⟨?_, ?_⟩
  · rw [hterm, exitCode_eq_natAbs _ hr]
  · intro stream status
    rw [hterm, (main_opened { w with stream := stream, rtlsdr_read_async := status } argv c
      optind hp ha hd ho).2]
    rfl

/-- C10 as amended at a run that streams, is interrupted, and whose buffer reset
answered -5. -/
theorem exit_status_is_abs_of_last_status_witness :
    (main flakyWorld ["rtl_sdr", "-f", "100000000", "out.bin"]).term = .returned 5
    ∧ ∀ (stream : List StreamEvent) (status : Int),
        (main { flakyWorld with stream := stream, rtlsdr_read_async := status }
          ["rtl_sdr", "-f", "100000000", "out.bin"]).term
          = (main flakyWorld ["rtl_sdr", "-f", "100000000", "out.bin"]).term :=
  exit_status_is_abs_of_last_status flakyWorld ["rtl_sdr", "-f", "100000000", "out.bin"]
    { dev_index := 0, frequency := 100000000, samp_rate := 2048000, gain := 0 } 3
    (by decide) (by decide) (by decide) (by decide) (by decide)

end RtlSdr
